import Mathlib

/-!
Shallow embedding of the rust-dnsclient resolution engine (src/sync.rs,
src/backend/sync.rs, src/system.rs).

Modelling choices:
- Raw DNS messages are lists of byte values (`List Nat`, each element < 256 on
  real inputs).  A `ParsedPacket` of the dnssector crate keeps the underlying
  packet bytes, so the engine-level value passed around after parsing is the
  byte list itself; `into_packet` is the identity on this representation.
- The header accessors `tid` (bytes 0..2, big endian) and `flags` (bytes 2..4,
  big endian) and the mutator `set_tid` are the fixed DNS wire layout that the
  external `dnssector` codec implements; they are modelled concretely.  The
  body accessors (`question`, the answer iterator), the query builder
  `dnssector::gen::query`, the parse-success predicate of
  `DNSSector::new(..).parse()`, the utf8 check of `String::from_utf8`, and the
  random list shuffle are external collaborators and are injected through a
  `DnsEnv` record of functions.
- The socket transports are injected as a `Network` oracle: `udp` maps
  (bound local address, server address, datagram) to an optional response
  datagram, `tcp` maps (server address, bytes written on the stream) to the
  optional byte stream read back.  Timeouts and connection errors are the
  `none` case.  `dns_exchange_udp` / `dns_exchange_tcp` below reproduce the
  backend logic (buffer truncation, 2-byte length framing, size ceiling) from
  src/backend/sync.rs on top of this oracle.
- Randomness (the masked transaction id of `query_raw`) is an explicit
  parameter.
- The engine functions additionally return the list of transport exchanges
  they performed (`Exch` events, recording protocol, server and DNS payload),
  ghost instrumentation used to state ordering / failover / escalation claims.
-/

inductive ErrKind where
  | invalidInput
  | invalidData
  | permissionDenied
  | notFound
  | wouldBlock
  | unsupported
  | other
deriving DecidableEq

structure IoError where
  kind : ErrKind
  msg : String
deriving DecidableEq

inductive IpAddr where
  | V4 (octets : List Nat)
  | V6 (octets : List Nat)
deriving DecidableEq

inductive SockAddr where
  | V4 (octets : List Nat) (port : Nat)
  | V6 (octets : List Nat) (port : Nat)
deriving DecidableEq

def SockAddr.port : SockAddr → Nat
  | .V4 _ p => p
  | .V6 _ p => p

structure UpstreamServer where
  addr : SockAddr
deriving DecidableEq

/-- Constants of the dnssector crate (wire-format values). -/
def DNS_FLAG_QR : Nat := 32768

def DNS_FLAG_TC : Nat := 512

def DNS_MAX_COMPRESSED_SIZE : Nat := 65535

def CLASS_IN : Nat := 1

def TYPE_A : Nat := 1

def TYPE_PTR : Nat := 12

def TYPE_TXT : Nat := 16

def TYPE_AAAA : Nat := 28

/-- Transaction id of a raw DNS message: big-endian 16-bit value at offset 0. -/
def tidOf (packet : List Nat) : Nat :=
  packet.headD 0 * 256 + (packet.drop 1).headD 0

/-- Flags word of a raw DNS message: big-endian 16-bit value at offset 2.
The QR and TC bits tested by the engine sit in this word. -/
def flagsOf (packet : List Nat) : Nat :=
  (packet.drop 2).headD 0 * 256 + (packet.drop 3).headD 0

/-- ParsedPacket::set_tid: overwrite the two transaction-id bytes. -/
def set_tid (packet : List Nat) (tid : Nat) : List Nat :=
  (tid / 256) % 256 :: tid % 256 :: packet.drop 2

/-- Resource record as exposed by the dnssector answer iterator: class, type,
the parsed IP address (for A/AAAA records, when rr_ip succeeds) and the raw
record data (when rr_rd yields RawRRData::Data). -/
structure RR where
  rr_class : Nat
  rr_type : Nat
  rr_ip : Option IpAddr
  rr_rd : Option (List Nat)
deriving DecidableEq

/-- Socket-level behaviour of the outside world, one exchange at a time. -/
structure Network where
  udp : SockAddr → SockAddr → List Nat → Option (List Nat)
  tcp : SockAddr → List Nat → Option (List Nat)

/-- External collaborators of the resolution engine (message codec, utf8
check, shuffling) plus the network. -/
structure DnsEnv where
  net : Network
  parseOk : List Nat → Bool
  questionOf : List Nat → Option (List Nat × Nat × Nat)
  answersOf : List Nat → List RR
  genQuery : List Nat → Nat → Nat → Except String (List Nat)
  isUtf8 : List Nat → Bool
  shuffle : List (List Nat) → List (List Nat)

/-- DNSSector::new(response).parse(): fails with InvalidInput, otherwise keeps
the packet bytes. -/
def dnssector_parse (env : DnsEnv) (bytes : List Nat) : Except IoError (List Nat) :=
  if env.parseOk bytes then .ok bytes else .error ⟨.invalidInput, "parse error"⟩

/-- Client configuration (src/sync.rs DNSClient). -/
structure DNSClient where
  upstream_servers : List UpstreamServer
  local_v4_addr : SockAddr
  local_v6_addr : SockAddr
  force_tcp : Bool

/-- Ghost record of one transport exchange: protocol, server, DNS payload. -/
inductive Exch where
  | udp (us : UpstreamServer) (query : List Nat)
  | tcp (us : UpstreamServer) (query : List Nat)
deriving DecidableEq

def Exch.server : Exch → UpstreamServer
  | .udp us _ => us
  | .tcp us _ => us

def Exch.payload : Exch → List Nat
  | .udp _ q => q
  | .tcp _ q => q

/-- SyncBackend::dns_exchange_udp: bind the local address, send, receive into
a DNS_MAX_COMPRESSED_SIZE buffer (truncating), any failure is a timeout. -/
def dns_exchange_udp (net : Network) (local_addr : SockAddr) (us : UpstreamServer)
    (query : List Nat) : Except IoError (List Nat) :=
  match net.udp local_addr us.addr query with
  | none => .error ⟨.wouldBlock, "Timeout"⟩
  | some response => .ok (response.take DNS_MAX_COMPRESSED_SIZE)

/-- Two-byte big-endian length followed by the message (TCP framing). -/
def tcpFrame (msg : List Nat) : List Nat :=
  (msg.length / 256) % 256 :: msg.length % 256 :: msg

/-- SyncBackend::dns_exchange_tcp: connects to the server (the _local_addr
parameter is received but never used, matching the source), writes the framed
query, reads a 2-byte length, rejects lengths above DNS_MAX_COMPRESSED_SIZE
with InvalidData, then reads the body. -/
def dns_exchange_tcp (net : Network) ( _local_addr : SockAddr) (us : UpstreamServer)
    (query : List Nat) : Except IoError (List Nat) :=
  match net.tcp us.addr (tcpFrame query) with
  | none => .error ⟨.other, "connection failed"⟩
  | some stream =>
    match stream with
    | [] => .error ⟨.other, "failed to fill whole buffer"⟩
    | [_] => .error ⟨.other, "failed to fill whole buffer"⟩
    | b0 :: b1 :: rest =>
      if b0 * 256 + b1 > DNS_MAX_COMPRESSED_SIZE then
        .error ⟨.invalidData, "Response too large"⟩
      else if rest.length < b0 * 256 + b1 then
        .error ⟨.other, "failed to fill whole buffer"⟩
      else .ok (rest.take (b0 * 256 + b1))

/-- Local bind address selection by the upstream's address family. -/
def localFor (c : DNSClient) (us : UpstreamServer) : SockAddr :=
  match us.addr with
  | .V4 _ _ => c.local_v4_addr
  | .V6 _ _ => c.local_v6_addr

/-- One transport exchange over TCP followed by the dnssector parse
(the body of the force_tcp branch and of the TC-escalation block of
DNSClient::send_query_to_upstream_server). -/
def tcp_leg (c : DNSClient) (env : DnsEnv) (us : UpstreamServer) (query : List Nat) :
    Except IoError (List Nat) :=
  match dns_exchange_tcp env.net (localFor c us) us query with
  | .error e => .error e
  | .ok response => dnssector_parse env response

/-- First exchange of DNSClient::send_query_to_upstream_server: TCP when
force_tcp is set, otherwise UDP, followed by the dnssector parse. -/
def first_leg (c : DNSClient) (env : DnsEnv) (us : UpstreamServer) (query : List Nat) :
    Except IoError (List Nat) :=
  if c.force_tcp then tcp_leg c env us query
  else
    match dns_exchange_udp env.net (localFor c us) us query with
    | .error e => .error e
    | .ok response => dnssector_parse env response

/-- TC-escalation condition of the source: not forcing TCP and the parsed
first response has the TC flag set. -/
def escalates (c : DNSClient) (env : DnsEnv) (us : UpstreamServer) (query : List Nat) : Bool :=
  match first_leg c env us query with
  | .error _ => false
  | .ok parsed0 => !c.force_tcp && (flagsOf parsed0 &&& DNS_FLAG_TC == DNS_FLAG_TC)

/-- Result of DNSClient::send_query_to_upstream_server: the candidate response
is the TCP redo when the source escalates, the first response otherwise; it is
then validated against the query transaction id and question, a mismatch
being the PermissionDenied failure of the source. -/
def send_result (c : DNSClient) (env : DnsEnv) (us : UpstreamServer)
    (query_tid : Nat) (query_question : Option (List Nat × Nat × Nat)) (query : List Nat) :
    Except IoError (List Nat) :=
  match
    (if escalates c env us query then tcp_leg c env us query
     else first_leg c env us query) with
  | .error e => .error e
  | .ok parsed_response =>
    if tidOf parsed_response ≠ query_tid ∨ env.questionOf parsed_response ≠ query_question then
      .error ⟨.permissionDenied, "Unexpected response"⟩
    else .ok parsed_response

/-- Transport exchanges performed by DNSClient::send_query_to_upstream_server,
in order: the first exchange (TCP under force_tcp, else UDP), then the single
TC-escalation TCP exchange when it happens. -/
def send_trace (c : DNSClient) (env : DnsEnv) (us : UpstreamServer) (query : List Nat) :
    List Exch :=
  (if c.force_tcp then [Exch.tcp us query] else [Exch.udp us query]) ++
    (if escalates c env us query then [Exch.tcp us query] else [])

/-- DNSClient::send_query_to_upstream_server (src/sync.rs): one per-server
exchange with UDP-to-TCP escalation on the TC flag and validation of the
response transaction id and question, paired with its exchange trace. -/
def send_query_to_upstream_server (c : DNSClient) (env : DnsEnv) (us : UpstreamServer)
    (query_tid : Nat) (query_question : Option (List Nat × Nat × Nat)) (query : List Nat) :
    List Exch × Except IoError (List Nat) :=
  (send_trace c env us query, send_result c env us query_tid query_question query)

/-- Failover loop of DNSClient::query_from_parsed_query: first validated
response wins, total exhaustion yields the terminal InvalidInput error. -/
def query_loop (c : DNSClient) (env : DnsEnv) (query_tid : Nat)
    (query_question : Option (List Nat × Nat × Nat)) (valid_query : List Nat) :
    List UpstreamServer → List Exch × Except IoError (List Nat)
  | [] => ([], .error ⟨.invalidInput, "No response received from any servers"⟩)
  | us :: rest =>
    match send_query_to_upstream_server c env us query_tid query_question valid_query with
    | (tr, .ok parsed_response) => (tr, .ok parsed_response)
    | (tr, .error _) =>
      match query_loop c env query_tid query_question valid_query rest with
      | (tr2, r) => (tr ++ tr2, r)

/-- DNSClient::query_from_parsed_query (src/sync.rs): validate the outbound
query (question present, QR unset) and run the failover loop. -/
def query_from_parsed_query (c : DNSClient) (env : DnsEnv) (parsed_query : List Nat) :
    List Exch × Except IoError (List Nat) :=
  if env.questionOf parsed_query = none ∨ flagsOf parsed_query &&& DNS_FLAG_QR ≠ 0 then
    ([], .error ⟨.invalidInput, "No DNS question"⟩)
  else
    query_loop c env (tidOf parsed_query) (env.questionOf parsed_query) parsed_query
      c.upstream_servers

/-- DNSClient::query_raw: parse the caller's bytes, optionally mask the
transaction id with a random 16-bit value, resolve, and restore the caller's
transaction id on the accepted response.  The random draw is the rnd
parameter (reduced to 16 bits as rnd.gen::<u16>() would produce). -/
def query_raw (c : DNSClient) (env : DnsEnv) (query : List Nat) (tid_masking : Bool)
    (rnd : Nat) : List Exch × Except IoError (List Nat) :=
  match dnssector_parse env query with
  | .error e => ([], .error e)
  | .ok parsed_query0 =>
    match
      (if tid_masking then (tidOf parsed_query0, set_tid parsed_query0 (rnd % 65536))
       else (0, parsed_query0)) with
    | (tid, parsed_query) =>
      match query_from_parsed_query c env parsed_query with
      | (tr, .error e) => (tr, .error e)
      | (tr, .ok parsed_response) =>
        (tr, .ok (if tid_masking then set_tid parsed_response tid else parsed_response))

/-- Answer walk of DNSClient::query_a: keep records whose rr_ip parses as V4. -/
def collect_a (answers : List RR) : List (List Nat) :=
  answers.filterMap fun item =>
    match item.rr_ip with
    | some (.V4 o) => some o
    | _ => none

/-- Answer walk of DNSClient::query_aaaa: keep records whose rr_ip parses as V6. -/
def collect_aaaa (answers : List RR) : List (List Nat) :=
  answers.filterMap fun item =>
    match item.rr_ip with
    | some (.V6 o) => some o
    | _ => none

/-- DNSClient::query_a: build an A/IN query, resolve, collect V4 answers,
shuffle.  Names are byte strings. -/
def query_a (c : DNSClient) (env : DnsEnv) (name : List Nat) :
    Except IoError (List (List Nat)) :=
  match env.genQuery name TYPE_A CLASS_IN with
  | .error e => .error ⟨.invalidInput, e⟩
  | .ok parsed_query =>
    match (query_from_parsed_query c env parsed_query).2 with
    | .error e => .error e
    | .ok parsed_response => .ok (env.shuffle (collect_a (env.answersOf parsed_response)))

/-- DNSClient::query_aaaa: same shape as query_a for AAAA records. -/
def query_aaaa (c : DNSClient) (env : DnsEnv) (name : List Nat) :
    Except IoError (List (List Nat)) :=
  match env.genQuery name TYPE_AAAA CLASS_IN with
  | .error e => .error ⟨.invalidInput, e⟩
  | .ok parsed_query =>
    match (query_from_parsed_query c env parsed_query).2 with
    | .error e => .error e
    | .ok parsed_response => .ok (env.shuffle (collect_aaaa (env.answersOf parsed_response)))

/-- Character-string decoding loop of query_txt, mirroring the byte iterator:
in state k = 0 the next byte is a chunk length, in state k + 1 the next byte
is chunk data; running out of bytes inside a chunk is the InvalidInput
failure of the source. -/
def txt_chunks : List Nat → Nat → Except IoError (List Nat)
  | [], 0 => .ok []
  | [], _ + 1 => .error ⟨.invalidInput, "Invalid text record"⟩
  | len :: rest, 0 => txt_chunks rest len
  | b :: rest, k + 1 =>
    match txt_chunks rest k with
    | .error e => .error e
    | .ok tail => .ok (b :: tail)

/-- TXT record data decoder: consecutive length-prefixed chunks concatenated. -/
def decode_txt (data : List Nat) : Except IoError (List Nat) :=
  txt_chunks data 0

/-- Answer walk of DNSClient::query_txt: skip records of the wrong class or
type and records without raw data, decode the rest, abort on a decode error. -/
def txt_walk : List RR → Except IoError (List (List Nat))
  | [] => .ok []
  | item :: rest =>
    if item.rr_class ≠ CLASS_IN ∨ item.rr_type ≠ TYPE_TXT then txt_walk rest
    else
      match item.rr_rd with
      | none => txt_walk rest
      | some data =>
        match decode_txt data with
        | .error e => .error e
        | .ok txt =>
          match txt_walk rest with
          | .error e => .error e
          | .ok txts => .ok (txt :: txts)

/-- DNSClient::query_txt: build a TXT/IN query, resolve, walk the answers. -/
def query_txt (c : DNSClient) (env : DnsEnv) (name : List Nat) :
    Except IoError (List (List Nat)) :=
  match env.genQuery name TYPE_TXT CLASS_IN with
  | .error e => .error ⟨.invalidInput, e⟩
  | .ok parsed_query =>
    match (query_from_parsed_query c env parsed_query).2 with
    | .error e => .error e
    | .ok parsed_response => txt_walk (env.answersOf parsed_response)

/-- Name decoding loop of query_ptr: length-prefixed labels joined with a dot
(byte 46), the dot inserted before a nonempty label when the accumulator is
nonempty; running out of bytes inside a label is the InvalidInput failure. -/
def ptr_chunks : List Nat → Nat → List Nat → Except IoError (List Nat)
  | [], 0, name => .ok name
  | [], _ + 1, _ => .error ⟨.invalidInput, "Invalid text record"⟩
  | len :: rest, 0, name =>
    ptr_chunks rest len (if len ≠ 0 ∧ name ≠ [] then name ++ [46] else name)
  | b :: rest, k + 1, name => ptr_chunks rest k (name ++ [b])

def decode_ptr_name (data : List Nat) : Except IoError (List Nat) :=
  ptr_chunks data 0 []

/-- Decimal rendering of a number as ASCII bytes (the to_string of the source). -/
def decimalBytes (n : Nat) : List Nat :=
  (Nat.toDigits 10 n).map Char.toNat

/-- ASCII bytes of a string literal. -/
def strBytes (s : String) : List Nat :=
  s.toList.map Char.toNat

/-- Labels joined with a dot. -/
def joinDots (labels : List (List Nat)) : List Nat :=
  List.intercalate [46] labels

/-- Reverse lookup name as built by DNSClient::query_ptr (src/sync.rs): for
V4, reversed octets in dotted decimal before in-addr.arpa; for V6, the code
reverses the 16 octets and joins their to_string renderings (decimal) with
dots before ip6.arpa. -/
def rev_name (ip : IpAddr) : List Nat :=
  match ip with
  | .V4 o => joinDots (o.reverse.map decimalBytes) ++ strBytes ".in-addr.arpa"
  | .V6 o => joinDots (o.reverse.map decimalBytes) ++ strBytes ".ip6.arpa"

def hexDigitByte (n : Nat) : Nat :=
  if n < 10 then 48 + n else 87 + n

/-- Modelled from the spec: the reverse lookup name the specification
describes, with the V6 case as reversed nibble-separated hexadecimal digits
before ip6.arpa (the V4 case coincides with the code). -/
def rev_name_spec (ip : IpAddr) : List Nat :=
  match ip with
  | .V4 o => joinDots (o.reverse.map decimalBytes) ++ strBytes ".in-addr.arpa"
  | .V6 o =>
    joinDots
      (((o.map fun b => [b / 16 % 16, b % 16]).flatten.reverse).map fun n => [hexDigitByte n]) ++
      strBytes ".ip6.arpa"

/-- Forward confirmation step of DNSClient::query_ptr: re-resolve the decoded
name's A records (V4 input) or AAAA records (V6 input) and report whether the
original address is contained in the result; a lookup error propagates. -/
def ptr_confirm (c : DNSClient) (env : DnsEnv) (ip : IpAddr) (name : List Nat) :
    Except IoError Bool :=
  match ip with
  | .V4 o =>
    match query_a c env name with
    | .error e => .error e
    | .ok ips => .ok (decide (o ∈ ips))
  | .V6 o =>
    match query_aaaa c env name with
    | .error e => .error e
    | .ok ips => .ok (decide (o ∈ ips))

/-- Name pushed by query_ptr: the decoded labels, or a single dot for the
empty name. -/
def ptr_display_name (decoded : List Nat) : List Nat :=
  if decoded = [] then [46] else decoded

/-- Answer walk of DNSClient::query_ptr: skip records of the wrong class or
type or without data, decode the name, map the empty name to a single dot,
skip names that are not utf8, forward-confirm and keep the name only when
confirmed; forward-lookup errors abort the call. -/
def ptr_walk (c : DNSClient) (env : DnsEnv) (ip : IpAddr) :
    List RR → Except IoError (List (List Nat))
  | [] => .ok []
  | item :: rest =>
    if item.rr_class ≠ CLASS_IN ∨ item.rr_type ≠ TYPE_PTR then ptr_walk c env ip rest
    else
      match item.rr_rd with
      | none => ptr_walk c env ip rest
      | some data =>
        match decode_ptr_name data with
        | .error e => .error e
        | .ok decoded =>
          if env.isUtf8 (ptr_display_name decoded) then
            match ptr_confirm c env ip (ptr_display_name decoded) with
            | .error e => .error e
            | .ok true =>
              match ptr_walk c env ip rest with
              | .error e => .error e
              | .ok names => .ok (ptr_display_name decoded :: names)
            | .ok false => ptr_walk c env ip rest
          else ptr_walk c env ip rest

/-- DNSClient::query_ptr: build the reverse name, query PTR/IN, walk and
forward-confirm the answers. -/
def query_ptr (c : DNSClient) (env : DnsEnv) (ip : IpAddr) :
    Except IoError (List (List Nat)) :=
  match env.genQuery (rev_name ip) TYPE_PTR CLASS_IN with
  | .error e => .error ⟨.invalidInput, e⟩
  | .ok parsed_query =>
    match (query_from_parsed_query c env parsed_query).2 with
    | .error e => .error e
    | .ok parsed_response => ptr_walk c env ip (env.answersOf parsed_response)

/-- ASCII whitespace test (model of char::is_whitespace on the characters a
resolv.conf line contains). -/
def isWsChar (ch : Char) : Bool :=
  ch = ' ' ∨ ch = '\t' ∨ ch = '\n' ∨ ch = '\r'

def trimChars (line : List Char) : List Char :=
  ((line.dropWhile isWsChar).reverse.dropWhile isWsChar).reverse

def startsWithChars : List Char → List Char → Bool
  | _, [] => true
  | [], _ :: _ => false
  | a :: as, b :: bs => a = b && startsWithChars as bs

def splitWsGo : List Char → List Char → List (List Char)
  | [], acc => if acc = [] then [] else [acc.reverse]
  | ch :: rest, acc =>
    if isWsChar ch then
      if acc = [] then splitWsGo rest [] else acc.reverse :: splitWsGo rest []
    else splitWsGo rest (ch :: acc)

/-- split_whitespace: maximal nonempty runs of non-whitespace characters. -/
def splitWs (line : List Char) : List (List Char) :=
  splitWsGo line []

def sockAddrOfIp (ip : IpAddr) (port : Nat) : SockAddr :=
  match ip with
  | .V4 o => .V4 o port
  | .V6 o => .V6 o port

/-- Body of the default_resolvers line loop on the trimmed line: require the
nameserver keyword, take the second whitespace token, parse it as an IP
address (parseIp models the external str parse of an IpAddr), and build an
upstream server on port 53; every failure skips the line. -/
def lineEntryTrimmed (parseIp : List Char → Option IpAddr) (t : List Char) :
    Option UpstreamServer :=
  if ¬ startsWithChars t ("nameserver".toList) then none
  else
    match splitWs t with
    | [] => none
    | _ :: rest =>
      match rest with
      | [] => none
      | addr :: _ =>
        match parseIp addr with
        | none => none
        | some ip => some ⟨sockAddrOfIp ip 53⟩

/-- One iteration of the default_resolvers line loop (src/system.rs): trim,
then process the line. -/
def lineEntry (parseIp : List Char → Option IpAddr) (line : List Char) :
    Option UpstreamServer :=
  lineEntryTrimmed parseIp (trimChars line)

/-- default_resolvers on unix (src/system.rs): collect the usable nameserver
lines, fail with NotFound when none survive. -/
def default_resolvers_unix (parseIp : List Char → Option IpAddr)
    (lines : List (List Char)) : Except IoError (List UpstreamServer) :=
  match lines.filterMap (lineEntry parseIp) with
  | [] => .error ⟨.notFound, "No upstream servers found"⟩
  | upstream_servers => .ok upstream_servers

/-- default_resolvers on non-unix platforms (src/system.rs lines 39-45): the
source returns a NotFound error, not an Unsupported one. -/
def default_resolvers_non_unix : Except IoError (List UpstreamServer) :=
  .error ⟨.notFound, "System resolvers are not supported by the software on this platform"⟩

/-- Modelled from the spec: length-prefixed chunk encoding used to state the
TXT round trip. -/
def encodeChunks (chunks : List (List Nat)) : List Nat :=
  (chunks.map fun ch => ch.length :: ch).flatten


/-! Concrete fixtures used by the witness theorems. -/

def serverA : UpstreamServer := ⟨.V4 [1, 0, 0, 1] 53⟩

def serverB : UpstreamServer := ⟨.V4 [1, 1, 1, 1] 53⟩

def clientA : DNSClient :=
  { upstream_servers := [serverA]
    local_v4_addr := .V4 [0, 0, 0, 0] 0
    local_v6_addr := .V6 [0, 0, 0, 0, 0, 0, 0, 0, 0, 0, 0, 0, 0, 0, 0, 0] 0
    force_tcp := false }

def clientAB : DNSClient := { clientA with upstream_servers := [serverA, serverB] }

def clientTcp : DNSClient := { clientA with force_tcp := true }

def q0 : List Nat := [0, 7, 0, 0]

def resp0 : List Nat := [0, 7, 128, 0]

def respTC : List Nat := [0, 7, 2, 0]

def envBase : DnsEnv :=
  { net := { udp := fun _ _ _ => none, tcp := fun _ _ => none }
    parseOk := fun _ => true
    questionOf := fun _ => some ([97], 1, 1)
    answersOf := fun _ => []
    genQuery := fun name ty _ => .ok ([0, 0, 0, 0] ++ name ++ [ty])
    isUtf8 := fun _ => true
    shuffle := fun l => l }

def envA : DnsEnv :=
  { envBase with net := { udp := fun _ _ _ => some resp0, tcp := fun _ _ => none } }

def envB : DnsEnv :=
  { envBase with
    net := { udp := fun _ saddr _ => if saddr = serverB.addr then some resp0 else none
             tcp := fun _ _ => none } }

def envTC : DnsEnv :=
  { envBase with
    net := { udp := fun _ _ _ => some respTC
             tcp := fun _ _ => some (tcpFrame resp0) } }

def envEcho : DnsEnv :=
  { envBase with
    net := { udp := fun _ _ q => some (q.take 2 ++ [128, 0]), tcp := fun _ _ => none } }

def ipW : IpAddr := .V4 [1, 1, 1, 1]

def envPtr : DnsEnv :=
  { envBase with
    net := { udp := fun _ _ q => some q, tcp := fun _ _ => none }
    answersOf := fun b =>
      if b = [0, 0, 0, 0] ++ rev_name ipW ++ [TYPE_PTR] then
        [⟨1, 12, none, some [1, 97]⟩]
      else if b = [0, 0, 0, 0] ++ [97] ++ [TYPE_A] then
        [⟨1, 1, some (.V4 [1, 1, 1, 1]), none⟩]
      else [] }

def envTxt : DnsEnv :=
  { envBase with
    net := { udp := fun _ _ q => some q, tcp := fun _ _ => none }
    answersOf := fun b =>
      if b = [0, 0, 0, 0] ++ [116] ++ [TYPE_TXT] then [⟨1, 16, none, some [5, 97, 98, 99]⟩]
      else [] }

def parseIpFix (s : List Char) : Option IpAddr :=
  if s = "1.1.1.1".toList then some (.V4 [1, 1, 1, 1]) else none

def linesFix : List (List Char) :=
  ["nameserver 1.1.1.1".toList, "nameserver bogus".toList]

/-! Helper lemmas about the engine. -/

theorem send_ok_validated (c : DNSClient) (env : DnsEnv) (us : UpstreamServer)
    (query_tid : Nat) (qq : Option (List Nat × Nat × Nat)) (q p : List Nat)
    (h : (send_query_to_upstream_server c env us query_tid qq q).2 = .ok p) :
    tidOf p = query_tid ∧ env.questionOf p = qq := by
  simp only [send_query_to_upstream_server] at h
  unfold send_result at h
  split at h
  · simp at h
  · split at h
    · simp at h
    · next hv =>
      push_neg at hv
      simp only [Except.ok.injEq] at h
      subst h
      exact hv

theorem send_trace_shape (c : DNSClient) (env : DnsEnv) (us : UpstreamServer)
    (query_tid : Nat) (qq : Option (List Nat × Nat × Nat)) (q : List Nat) :
    ∀ e ∈ (send_query_to_upstream_server c env us query_tid qq q).1,
      e = .udp us q ∨ e = .tcp us q := by
  intro e he
  simp only [send_query_to_upstream_server, send_trace, List.mem_append] at he
  rcases he with he | he <;> split at he <;> simp_all

theorem loop_ok_validated (c : DNSClient) (env : DnsEnv) (query_tid : Nat)
    (qq : Option (List Nat × Nat × Nat)) (q p : List Nat) (ss : List UpstreamServer)
    (h : (query_loop c env query_tid qq q ss).2 = .ok p) :
    tidOf p = query_tid ∧ env.questionOf p = qq := by
  induction ss with
  | nil => simp [query_loop] at h
  | cons us rest ih =>
    unfold query_loop at h
    split at h
    next heq => exact send_ok_validated c env us query_tid qq q p (by simp [heq] at h ⊢; simp [heq, h])
    next heq => exact ih (by simpa using h)

theorem loop_trace_payload (c : DNSClient) (env : DnsEnv) (query_tid : Nat)
    (qq : Option (List Nat × Nat × Nat)) (q : List Nat) (ss : List UpstreamServer) :
    ∀ e ∈ (query_loop c env query_tid qq q ss).1, e.payload = q := by
  induction ss with
  | nil => simp [query_loop]
  | cons us rest ih =>
    intro e he
    unfold query_loop at he
    split at he
    next heq =>
      have := send_trace_shape c env us query_tid qq q e (by rw [heq]; exact he)
      rcases this with h | h <;> simp [h, Exch.payload]
    next heq =>
      simp only [List.mem_append] at he
      rcases he with he | he
      · have := send_trace_shape c env us query_tid qq q e (by rw [heq]; exact he)
        rcases this with h | h <;> simp [h, Exch.payload]
      · exact ih e he

theorem loop_all_fail (c : DNSClient) (env : DnsEnv) (query_tid : Nat)
    (qq : Option (List Nat × Nat × Nat)) (q : List Nat) (ss : List UpstreamServer)
    (h : ∀ s ∈ ss, (send_query_to_upstream_server c env s query_tid qq q).2.isOk = false) :
    query_loop c env query_tid qq q ss =
      ((ss.map fun s => (send_query_to_upstream_server c env s query_tid qq q).1).flatten,
        .error ⟨.invalidInput, "No response received from any servers"⟩) := by
  induction ss with
  | nil => simp [query_loop]
  | cons us rest ih =>
    have hus := h us (by simp)
    unfold query_loop
    split
    next heq => rw [heq] at hus; simp [Except.isOk, Except.toBool] at hus
    next heq =>
      rw [ih fun s hs => h s (by simp [hs])]
      simp [heq]

theorem loop_first_ok (c : DNSClient) (env : DnsEnv) (query_tid : Nat)
    (qq : Option (List Nat × Nat × Nat)) (q p : List Nat)
    (pre rest : List UpstreamServer) (s : UpstreamServer)
    (hpre : ∀ s' ∈ pre, (send_query_to_upstream_server c env s' query_tid qq q).2.isOk = false)
    (hs : (send_query_to_upstream_server c env s query_tid qq q).2 = .ok p) :
    query_loop c env query_tid qq q (pre ++ s :: rest) =
      ((pre.map fun s' => (send_query_to_upstream_server c env s' query_tid qq q).1).flatten ++
        (send_query_to_upstream_server c env s query_tid qq q).1, .ok p) := by
  induction pre with
  | nil =>
    simp only [List.nil_append, List.map_nil, List.flatten_nil]
    unfold query_loop
    split
    next heq => simp_all
    next heq => rw [heq] at hs; simp at hs
  | cons us pre' ih =>
    have hus := hpre us (by simp)
    simp only [List.cons_append]
    unfold query_loop
    split
    next heq => rw [heq] at hus; simp [Except.isOk, Except.toBool] at hus
    next heq =>
      rw [ih fun s' hs' => hpre s' (by simp [hs'])]
      simp [heq]

theorem dnssector_parse_ok (env : DnsEnv) (b p : List Nat)
    (h : dnssector_parse env b = .ok p) : p = b := by
  unfold dnssector_parse at h
  split at h <;> simp_all

theorem send_result_ok_candidate (c : DNSClient) (env : DnsEnv) (us : UpstreamServer)
    (qt : Nat) (qq : Option (List Nat × Nat × Nat)) (q p : List Nat)
    (h : send_result c env us qt qq q = .ok p) :
    (if escalates c env us q then tcp_leg c env us q else first_leg c env us q) = .ok p := by
  unfold send_result at h
  split at h
  next heq => simp at h
  next heq =>
    split at h
    · simp at h
    · simp only [Except.ok.injEq] at h
      rw [heq, h]

theorem first_leg_udp (c : DNSClient) (env : DnsEnv) (us : UpstreamServer) (q r : List Nat)
    (hf : c.force_tcp = false)
    (hu : dns_exchange_udp env.net (localFor c us) us q = .ok r)
    (hp : env.parseOk r = true) :
    first_leg c env us q = .ok r := by
  unfold first_leg
  rw [hf]
  simp [hu, dnssector_parse, hp]

theorem escalates_of_tc (c : DNSClient) (env : DnsEnv) (us : UpstreamServer) (q r : List Nat)
    (hf : c.force_tcp = false)
    (hu : dns_exchange_udp env.net (localFor c us) us q = .ok r)
    (hp : env.parseOk r = true)
    (htc : flagsOf r &&& DNS_FLAG_TC = DNS_FLAG_TC) :
    escalates c env us q = true := by
  unfold escalates
  rw [first_leg_udp c env us q r hf hu hp]
  simp [hf, htc]

theorem no_escalate_without_tc (c : DNSClient) (env : DnsEnv) (us : UpstreamServer)
    (q r : List Nat)
    (hf : c.force_tcp = false)
    (hu : dns_exchange_udp env.net (localFor c us) us q = .ok r)
    (hp : env.parseOk r = true)
    (htc : flagsOf r &&& DNS_FLAG_TC ≠ DNS_FLAG_TC) :
    escalates c env us q = false := by
  unfold escalates
  rw [first_leg_udp c env us q r hf hu hp]
  simp [hf, htc]

theorem no_escalate_forced (c : DNSClient) (env : DnsEnv) (us : UpstreamServer) (q : List Nat)
    (hf : c.force_tcp = true) :
    escalates c env us q = false := by
  unfold escalates
  split
  · rfl
  · simp [hf]

theorem tcp_leg_ok (c : DNSClient) (env : DnsEnv) (us : UpstreamServer) (q p : List Nat)
    (h : tcp_leg c env us q = .ok p) :
    dns_exchange_tcp env.net (localFor c us) us q = .ok p := by
  unfold tcp_leg at h
  split at h
  · simp at h
  · next heq => rw [heq, dnssector_parse_ok env _ p h]

theorem qfpq_invalid (c : DNSClient) (env : DnsEnv) (q : List Nat)
    (h : env.questionOf q = none ∨ flagsOf q &&& DNS_FLAG_QR ≠ 0) :
    query_from_parsed_query c env q = ([], .error ⟨.invalidInput, "No DNS question"⟩) := by
  unfold query_from_parsed_query
  rw [if_pos h]

theorem qfpq_valid (c : DNSClient) (env : DnsEnv) (q : List Nat)
    (h1 : env.questionOf q ≠ none) (h2 : flagsOf q &&& DNS_FLAG_QR = 0) :
    query_from_parsed_query c env q =
      query_loop c env (tidOf q) (env.questionOf q) q c.upstream_servers := by
  unfold query_from_parsed_query
  rw [if_neg]
  push_neg
  exact ⟨h1, h2⟩

theorem qfpq_ok_validated (c : DNSClient) (env : DnsEnv) (q p : List Nat)
    (h : (query_from_parsed_query c env q).2 = .ok p) :
    tidOf p = tidOf q ∧ env.questionOf p = env.questionOf q := by
  unfold query_from_parsed_query at h
  split at h
  · simp at h
  · exact loop_ok_validated c env (tidOf q) (env.questionOf q) q p c.upstream_servers h

theorem qfpq_trace_payload (c : DNSClient) (env : DnsEnv) (q : List Nat) :
    ∀ e ∈ (query_from_parsed_query c env q).1, e.payload = q := by
  unfold query_from_parsed_query
  split
  · simp
  · exact loop_trace_payload c env (tidOf q) (env.questionOf q) q c.upstream_servers

theorem tidOf_set_tid (p : List Nat) (t : Nat) (ht : t < 65536) :
    tidOf (set_tid p t) = t := by
  unfold tidOf set_tid
  simp only [List.headD_cons, List.drop_succ_cons, List.drop_zero]
  have h1 : t / 256 < 256 := by omega
  rw [Nat.mod_eq_of_lt h1]
  omega

theorem tidOf_lt (p : List Nat) (hb : ∀ b ∈ p, b < 256) : tidOf p < 65536 := by
  unfold tidOf
  match p with
  | [] => simp
  | [a] =>
    have := hb a (by simp)
    simp
    omega
  | a :: b :: rest =>
    have ha := hb a (by simp)
    have hbb := hb b (by simp)
    simp
    omega

/-! Claim theorems. -/

/-- C1: for every query that has a question and has the QR flag unset, the
resolve operation query_from_parsed_query either fails or returns a response
whose transaction id equals the query's transaction id and whose question
equals the query's question; it never returns a mismatched message. -/
theorem c1_resolve_returns_only_matching_responses (c : DNSClient) (env : DnsEnv)
    (q p : List Nat)
    (hq : env.questionOf q ≠ none) (hqr : flagsOf q &&& DNS_FLAG_QR = 0)
    (h : (query_from_parsed_query c env q).2 = .ok p) :
    tidOf p = tidOf q ∧ env.questionOf p = env.questionOf q :=
  qfpq_ok_validated c env q p h

/-- Witness for C1: a concrete resolution succeeds and the returned response
carries the query's transaction id and question. -/
theorem c1_witness :
    tidOf resp0 = tidOf q0 ∧ envA.questionOf resp0 = envA.questionOf q0 :=
  c1_resolve_returns_only_matching_responses clientA envA q0 resp0 (by decide) (by decide)
    (by rfl)

/-- C8: a parsed query whose question is absent or whose QR flag is set is
rejected immediately with the InvalidInput "No DNS question" error, with an
empty exchange trace: no upstream server is contacted. -/
theorem c8_invalid_query_rejected_before_any_exchange (c : DNSClient) (env : DnsEnv)
    (q : List Nat)
    (h : env.questionOf q = none ∨ flagsOf q &&& DNS_FLAG_QR ≠ 0) :
    query_from_parsed_query c env q = ([], .error ⟨.invalidInput, "No DNS question"⟩) :=
  qfpq_invalid c env q h

/-- Witness for C8: a query with the QR flag set is rejected with no exchange. -/
theorem c8_witness :
    query_from_parsed_query clientA envA [0, 7, 128, 0] =
      ([], .error ⟨.invalidInput, "No DNS question"⟩) :=
  c8_invalid_query_rejected_before_any_exchange clientA envA [0, 7, 128, 0]
    (Or.inr (by decide))

/-- C3: with a valid query, the engine performs a single linear sweep of the
server list: if the servers before s in the list all fail and s yields a
validated response p, resolve returns p and the exchange trace is exactly the
single attempts of the failed servers in list order followed by the attempt
of s (no later server consulted, no server retried); if every server fails,
resolve returns the single terminal InvalidInput "No response received from
any servers" error rather than any per-server error. -/
theorem c3_failover_linear_first_success (c : DNSClient) (env : DnsEnv) (q : List Nat)
    (hq : env.questionOf q ≠ none) (hqr : flagsOf q &&& DNS_FLAG_QR = 0) :
    (∀ pre s rest p, c.upstream_servers = pre ++ s :: rest →
      (∀ s' ∈ pre,
        (send_query_to_upstream_server c env s' (tidOf q) (env.questionOf q) q).2.isOk =
          false) →
      (send_query_to_upstream_server c env s (tidOf q) (env.questionOf q) q).2 = .ok p →
      query_from_parsed_query c env q =
        ((pre.map fun s' =>
            (send_query_to_upstream_server c env s' (tidOf q) (env.questionOf q) q).1).flatten ++
          (send_query_to_upstream_server c env s (tidOf q) (env.questionOf q) q).1, .ok p)) ∧
    ((∀ s ∈ c.upstream_servers,
        (send_query_to_upstream_server c env s (tidOf q) (env.questionOf q) q).2.isOk =
          false) →
      (query_from_parsed_query c env q).2 =
        .error ⟨.invalidInput, "No response received from any servers"⟩) := by
  constructor
  · intro pre s rest p hl hpre hs
    rw [qfpq_valid c env q hq hqr, hl]
    exact loop_first_ok c env (tidOf q) (env.questionOf q) q p pre rest s hpre hs
  · intro hall
    rw [qfpq_valid c env q hq hqr, loop_all_fail c env (tidOf q) (env.questionOf q) q
      c.upstream_servers hall]

/-- Witness for C3: with a first server that fails and a second that answers,
resolve returns the second server's response after exactly one attempt per
server; with all servers failing, resolve returns the terminal error. -/
theorem c3_witness :
    query_from_parsed_query clientAB envB q0 =
      ([Exch.udp serverA q0, Exch.udp serverB q0], .ok resp0) ∧
    (query_from_parsed_query clientAB envBase q0).2 =
      .error ⟨.invalidInput, "No response received from any servers"⟩ :=
  ⟨(c3_failover_linear_first_success clientAB envB q0 (by decide) (by decide)).1
      [serverA] serverB [] resp0 (by rfl) (by decide) (by rfl),
    (c3_failover_linear_first_success clientAB envBase q0 (by decide) (by decide)).2
      (by decide)⟩

/-- C4: per-server exchange policy: under force_tcp the attempt consists of a
single TCP exchange; otherwise the first exchange is UDP, a parsed UDP
response with the TC flag set triggers exactly one follow-up TCP exchange to
the same server whose parsed result becomes the candidate (any accepted
response is then the TCP response), and a parsed UDP response without TC
triggers no TCP exchange (any accepted response is the UDP response). -/
theorem c4_udp_tcp_escalation_policy (c : DNSClient) (env : DnsEnv) (us : UpstreamServer)
    (query_tid : Nat) (qq : Option (List Nat × Nat × Nat)) (q : List Nat) :
    (c.force_tcp = true →
      (send_query_to_upstream_server c env us query_tid qq q).1 = [Exch.tcp us q]) ∧
    (c.force_tcp = false →
      ((send_query_to_upstream_server c env us query_tid qq q).1).head? =
        some (Exch.udp us q)) ∧
    (∀ r, c.force_tcp = false →
      dns_exchange_udp env.net (localFor c us) us q = .ok r →
      env.parseOk r = true →
      flagsOf r &&& DNS_FLAG_TC = DNS_FLAG_TC →
      (send_query_to_upstream_server c env us query_tid qq q).1 =
        [Exch.udp us q, Exch.tcp us q] ∧
      (∀ p, (send_query_to_upstream_server c env us query_tid qq q).2 = .ok p →
        dns_exchange_tcp env.net (localFor c us) us q = .ok p)) ∧
    (∀ r, c.force_tcp = false →
      dns_exchange_udp env.net (localFor c us) us q = .ok r →
      env.parseOk r = true →
      flagsOf r &&& DNS_FLAG_TC ≠ DNS_FLAG_TC →
      (send_query_to_upstream_server c env us query_tid qq q).1 = [Exch.udp us q] ∧
      (∀ p, (send_query_to_upstream_server c env us query_tid qq q).2 = .ok p → p = r)) := by
  refine ⟨?_, ?_, ?_, ?_⟩
  · intro hf
    simp [send_query_to_upstream_server, send_trace, hf, no_escalate_forced c env us q hf]
  · intro hf
    simp [send_query_to_upstream_server, send_trace, hf]
  · intro r hf hu hp htc
    have hesc := escalates_of_tc c env us q r hf hu hp htc
    constructor
    · simp [send_query_to_upstream_server, send_trace, hf, hesc]
    · intro p hok
      have hc := send_result_ok_candidate c env us query_tid qq q p hok
      rw [hesc] at hc
      simp only [if_true] at hc
      exact tcp_leg_ok c env us q p hc
  · intro r hf hu hp htc
    have hesc := no_escalate_without_tc c env us q r hf hu hp htc
    constructor
    · simp [send_query_to_upstream_server, send_trace, hf, hesc]
    · intro p hok
      have hc := send_result_ok_candidate c env us query_tid qq q p hok
      rw [hesc, if_neg (by decide)] at hc
      rw [first_leg_udp c env us q r hf hu hp] at hc
      simp only [Except.ok.injEq] at hc
      exact hc.symm

/-- Witness for C4: a truncated UDP response leads to the trace UDP then TCP
against the same server and the accepted response is the TCP one. -/
theorem c4_witness :
    (send_query_to_upstream_server clientA envTC serverA 7 (envTC.questionOf q0) q0).1 =
      [Exch.udp serverA q0, Exch.tcp serverA q0] ∧
    dns_exchange_tcp envTC.net (localFor clientA serverA) serverA q0 = .ok resp0 := by
  have h := (c4_udp_tcp_escalation_policy clientA envTC serverA 7
    (envTC.questionOf q0) q0).2.2.1 respTC (by rfl) (by rfl) (by rfl) (by decide)
  exact ⟨h.1, h.2 resp0 (by rfl)⟩

/-- C10: the TCP transport ignores the local bind address entirely: the
exchange result does not depend on it, and under force_tcp the whole
per-server attempt is unchanged by reconfiguring the client's local bind
addresses, so the local bind configuration can only influence UDP exchanges. -/
theorem c10_tcp_ignores_local_bind :
    (∀ (net : Network) (la la2 : SockAddr) (us : UpstreamServer) (q : List Nat),
      dns_exchange_tcp net la us q = dns_exchange_tcp net la2 us q) ∧
    (∀ (c : DNSClient) (env : DnsEnv) (v4 v6 : SockAddr) (us : UpstreamServer)
      (qt : Nat) (qq : Option (List Nat × Nat × Nat)) (q : List Nat),
      c.force_tcp = true →
      send_query_to_upstream_server
        { c with local_v4_addr := v4, local_v6_addr := v6 } env us qt qq q =
        send_query_to_upstream_server c env us qt qq q) := by
  constructor
  · intro net la la2 us q
    rfl
  · intro c env v4 v6 us qt qq q hf
    unfold send_query_to_upstream_server send_trace send_result escalates first_leg
    simp only [hf]
    rfl

/-- Witness for C10: a concrete forced-TCP attempt is unchanged by moving the
local bind addresses. -/
theorem c10_witness :
    send_query_to_upstream_server
      { clientTcp with local_v4_addr := SockAddr.V4 [9, 9, 9, 9] 99
                       local_v6_addr := SockAddr.V6 [9, 9, 9, 9, 9, 9, 9, 9, 9, 9, 9, 9, 9, 9, 9, 9] 99 }
      envTC serverA 7 (envTC.questionOf q0) q0 =
      send_query_to_upstream_server clientTcp envTC serverA 7 (envTC.questionOf q0) q0 :=
  c10_tcp_ignores_local_bind.2 clientTcp envTC (SockAddr.V4 [9, 9, 9, 9] 99)
    (SockAddr.V6 [9, 9, 9, 9, 9, 9, 9, 9, 9, 9, 9, 9, 9, 9, 9, 9] 99) serverA 7
    (envTC.questionOf q0) q0 (by rfl)

/-- C2: for a successful query_raw call with tid_masking, the transaction id
field of the returned bytes equals the transaction id of the caller's input
bytes, every wire exchange carries the freshly drawn random 16-bit
transaction id instead of the caller's, and the accepted response was
validated against (hence carries) that masked id before being rewritten. -/
theorem c2_tid_masking_transparent (c : DNSClient) (env : DnsEnv) (query : List Nat)
    (rnd : Nat) (out : List Nat)
    (hbytes : ∀ b ∈ query, b < 256)
    (hok : (query_raw c env query true rnd).2 = .ok out) :
    tidOf out = tidOf query ∧
    (∀ e ∈ (query_raw c env query true rnd).1, tidOf e.payload = rnd % 65536) ∧
    ∃ resp, (query_from_parsed_query c env (set_tid query (rnd % 65536))).2 = .ok resp ∧
      tidOf resp = rnd % 65536 ∧ out = set_tid resp (tidOf query) := by
  by_cases hp : env.parseOk query
  case neg =>
    rw [show query_raw c env query true rnd = ([], .error ⟨.invalidInput, "parse error"⟩) from
      by simp [query_raw, dnssector_parse, hp]] at hok
    simp at hok
  case pos =>
    have hdp : dnssector_parse env query = .ok query := by simp [dnssector_parse, hp]
    rcases hsplit : query_from_parsed_query c env (set_tid query (rnd % 65536)) with ⟨tr, res⟩
    have hqr_eq : query_raw c env query true rnd =
        (tr, match res with
             | Except.error e => Except.error e
             | Except.ok parsed_response => Except.ok (set_tid parsed_response (tidOf query))) := by
      simp only [query_raw, hdp, hsplit, eq_self_iff_true, ite_true]
      cases res <;> rfl
    cases res with
    | error e =>
      rw [hqr_eq] at hok
      simp at hok
    | ok resp =>
      rw [hqr_eq] at hok
      simp only [Except.ok.injEq] at hok
      subst hok
      have h3 : (query_from_parsed_query c env (set_tid query (rnd % 65536))).2 = .ok resp := by
        rw [hsplit]
      refine ⟨?_, ?_, ⟨resp, rfl, ?_, rfl⟩⟩
      · exact tidOf_set_tid resp (tidOf query) (tidOf_lt query hbytes)
      · intro e he
        have hmem : e ∈ (query_from_parsed_query c env (set_tid query (rnd % 65536))).1 := by
          rw [hsplit]
          rw [hqr_eq] at he
          exact he
        rw [qfpq_trace_payload c env _ e hmem]
        exact tidOf_set_tid query (rnd % 65536) (Nat.mod_lt rnd (by omega))
      · rw [(qfpq_ok_validated c env _ resp h3).1]
        exact tidOf_set_tid query (rnd % 65536) (Nat.mod_lt rnd (by omega))

/-- Witness for C2: a concrete masked raw query against an echoing server
returns the caller's transaction id while the wire exchange used the masked
one. -/
theorem c2_witness :
    tidOf resp0 = tidOf q0 ∧
    (∀ e ∈ (query_raw clientA envEcho q0 true 300).1, tidOf e.payload = 300 % 65536) ∧
    ∃ resp, (query_from_parsed_query clientA envEcho (set_tid q0 (300 % 65536))).2 =
        .ok resp ∧ tidOf resp = 300 % 65536 ∧ resp0 = set_tid resp (tidOf q0) :=
  c2_tid_masking_transparent clientA envEcho q0 300 resp0 (by decide) (by rfl)

theorem txt_chunks_take (chunk rest : List Nat) :
    txt_chunks (chunk ++ rest) chunk.length =
      match txt_chunks rest 0 with
      | .error e => .error e
      | .ok tail => .ok (chunk ++ tail) := by
  induction chunk with
  | nil =>
    cases htc : txt_chunks rest 0 <;> simp [htc]
  | cons b cbs ih =>
    simp only [List.cons_append, List.length_cons]
    rw [show txt_chunks (b :: (cbs ++ rest)) (cbs.length + 1) =
        match txt_chunks (cbs ++ rest) cbs.length with
        | .error e => .error e
        | .ok tail => .ok (b :: tail) from rfl]
    rw [ih]
    cases txt_chunks rest 0 <;> rfl

theorem txt_chunks_short (rest : List Nat) : ∀ k : Nat, rest.length < k →
    txt_chunks rest k = .error ⟨.invalidInput, "Invalid text record"⟩ := by
  induction rest with
  | nil =>
    intro k h
    cases k with
    | zero => simp at h
    | succ n => rfl
  | cons b bs ih =>
    intro k h
    cases k with
    | zero => simp at h
    | succ n =>
      rw [show txt_chunks (b :: bs) (n + 1) =
          match txt_chunks bs n with
          | .error e => .error e
          | .ok tail => .ok (b :: tail) from rfl]
      rw [ih n (by simpa using h)]

theorem txt_chunks_err (data : List Nat) : ∀ (k : Nat) (e : IoError),
    txt_chunks data k = .error e → e = ⟨.invalidInput, "Invalid text record"⟩ := by
  induction data with
  | nil =>
    intro k e h
    cases k with
    | zero => simp [txt_chunks] at h
    | succ n =>
      rw [show txt_chunks [] (n + 1) =
          .error ⟨.invalidInput, "Invalid text record"⟩ from rfl] at h
      exact (Except.error.inj h).symm
  | cons b bs ih =>
    intro k e h
    cases k with
    | zero => exact ih b e h
    | succ n =>
      rw [show txt_chunks (b :: bs) (n + 1) =
          match txt_chunks bs n with
          | .error e2 => .error e2
          | .ok tail => .ok (b :: tail) from rfl] at h
      cases htc : txt_chunks bs n with
      | error e2 =>
        rw [htc] at h
        simp only [Except.error.injEq] at h
        rw [← h]
        exact ih n e2 htc
      | ok tail =>
        rw [htc] at h
        simp at h

theorem decode_txt_roundtrip (cs : List (List Nat)) :
    decode_txt (encodeChunks cs) = .ok cs.flatten := by
  induction cs with
  | nil => rfl
  | cons chunk cs ih =>
    have h1 : encodeChunks (chunk :: cs) = chunk.length :: (chunk ++ encodeChunks cs) := by
      simp [encodeChunks]
    rw [decode_txt, h1]
    rw [show txt_chunks (chunk.length :: (chunk ++ encodeChunks cs)) 0 =
        txt_chunks (chunk ++ encodeChunks cs) chunk.length from rfl]
    rw [txt_chunks_take]
    rw [show txt_chunks (encodeChunks cs) 0 = decode_txt (encodeChunks cs) from rfl, ih]
    simp

theorem decode_txt_truncated (cs : List (List Nat)) (len : Nat) (rest : List Nat)
    (h : rest.length < len) :
    decode_txt (encodeChunks cs ++ len :: rest) =
      .error ⟨.invalidInput, "Invalid text record"⟩ := by
  induction cs with
  | nil =>
    rw [show encodeChunks [] ++ len :: rest = len :: rest from rfl]
    rw [decode_txt]
    rw [show txt_chunks (len :: rest) 0 = txt_chunks rest len from rfl]
    exact txt_chunks_short rest len h
  | cons chunk cs ih =>
    have h1 : encodeChunks (chunk :: cs) ++ len :: rest =
        chunk.length :: (chunk ++ (encodeChunks cs ++ len :: rest)) := by
      simp [encodeChunks]
    rw [decode_txt, h1]
    rw [show txt_chunks (chunk.length :: (chunk ++ (encodeChunks cs ++ len :: rest))) 0 =
        txt_chunks (chunk ++ (encodeChunks cs ++ len :: rest)) chunk.length from rfl]
    rw [txt_chunks_take]
    rw [show txt_chunks (encodeChunks cs ++ len :: rest) 0 =
        decode_txt (encodeChunks cs ++ len :: rest) from rfl, ih]

theorem txt_walk_err_of_bad_record (answers : List RR) (item : RR) (data : List Nat)
    (hmem : item ∈ answers) (hc : item.rr_class = CLASS_IN) (ht : item.rr_type = TYPE_TXT)
    (hd : item.rr_rd = some data) (hbad : ∃ e, decode_txt data = .error e) :
    txt_walk answers = .error ⟨.invalidInput, "Invalid text record"⟩ := by
  induction answers with
  | nil => simp at hmem
  | cons a rest ih =>
    rcases List.mem_cons.mp hmem with rfl | hmem2
    · unfold txt_walk
      rw [if_neg (by simp [hc, ht])]
      rw [hd]
      rcases hbad with ⟨e, he⟩
      show (match decode_txt data with
            | Except.error e => Except.error e
            | Except.ok txt =>
              match txt_walk rest with
              | Except.error e => Except.error e
              | Except.ok txts => Except.ok (txt :: txts)) =
        Except.error ⟨.invalidInput, "Invalid text record"⟩
      rw [he, txt_chunks_err data 0 e he]
    · unfold txt_walk
      split
      · exact ih hmem2
      · cases hrd : a.rr_rd with
        | none => exact ih hmem2
        | some data2 =>
          show (match decode_txt data2 with
                | Except.error e => Except.error e
                | Except.ok txt =>
                  match txt_walk rest with
                  | Except.error e => Except.error e
                  | Except.ok txts => Except.ok (txt :: txts)) =
            Except.error ⟨.invalidInput, "Invalid text record"⟩
          cases hdec : decode_txt data2 with
          | error e2 =>
            rw [txt_chunks_err data2 0 e2 hdec]
          | ok txt =>
            rw [ih hmem2]

theorem query_txt_walk_eq (c : DNSClient) (env : DnsEnv) (name pq resp : List Nat)
    (hgen : env.genQuery name TYPE_TXT CLASS_IN = .ok pq)
    (hres : (query_from_parsed_query c env pq).2 = .ok resp) :
    query_txt c env name = txt_walk (env.answersOf resp) := by
  unfold query_txt
  rw [hgen]
  show (match (query_from_parsed_query c env pq).2 with
        | Except.error e => Except.error e
        | Except.ok parsed_response => txt_walk (env.answersOf parsed_response)) = _
  rw [hres]

/-- C7: the TXT record decoder consumes consecutive length-prefixed chunks
and outputs the concatenation of their data with no chunk boundaries (so the
encoding of chunks abc and de decodes to abcde); and whenever the decoded
record data ends in a chunk whose length byte exceeds the bytes remaining,
query_txt fails the whole call with the InvalidInput "Invalid text record"
error. -/
theorem c7_txt_chunk_decoding :
    (∀ cs : List (List Nat), (∀ ch ∈ cs, ch.length ≤ 255) →
      decode_txt (encodeChunks cs) = .ok cs.flatten) ∧
    (∀ (cs : List (List Nat)) (len : Nat) (rest : List Nat), rest.length < len →
      decode_txt (encodeChunks cs ++ len :: rest) =
        .error ⟨.invalidInput, "Invalid text record"⟩) ∧
    (∀ (c : DNSClient) (env : DnsEnv) (name pq resp : List Nat) (item : RR)
      (cs : List (List Nat)) (len : Nat) (rest : List Nat),
      env.genQuery name TYPE_TXT CLASS_IN = .ok pq →
      (query_from_parsed_query c env pq).2 = .ok resp →
      item ∈ env.answersOf resp →
      item.rr_class = CLASS_IN → item.rr_type = TYPE_TXT →
      item.rr_rd = some (encodeChunks cs ++ len :: rest) →
      rest.length < len →
      query_txt c env name = .error ⟨.invalidInput, "Invalid text record"⟩) := by
  refine ⟨fun cs _ => decode_txt_roundtrip cs, decode_txt_truncated, ?_⟩
  intro c env name pq resp item cs len rest hgen hres hmem hc ht hd hlen
  rw [query_txt_walk_eq c env name pq resp hgen hres]
  exact txt_walk_err_of_bad_record (env.answersOf resp) item _ hmem hc ht hd
    ⟨_, decode_txt_truncated cs len rest hlen⟩

/-- Witness for C7: the concrete round trip of the chunks abc and de, a
truncated chunk of declared length 5 with 3 bytes left, and a full query_txt
call failing on such a record. -/
theorem c7_witness :
    decode_txt (encodeChunks [[97, 98, 99], [100, 101]]) = .ok [97, 98, 99, 100, 101] ∧
    decode_txt (encodeChunks [[97, 98, 99]] ++ 5 :: [97, 98, 99]) =
      .error ⟨.invalidInput, "Invalid text record"⟩ ∧
    query_txt clientA envTxt [116] = .error ⟨.invalidInput, "Invalid text record"⟩ :=
  ⟨c7_txt_chunk_decoding.1 [[97, 98, 99], [100, 101]] (by decide),
    c7_txt_chunk_decoding.2.1 [[97, 98, 99]] 5 [97, 98, 99] (by decide),
    c7_txt_chunk_decoding.2.2 clientA envTxt [116] [0, 0, 0, 0, 116, 16] [0, 0, 0, 0, 116, 16]
      ⟨1, 16, none, some [5, 97, 98, 99]⟩ [] 5 [97, 98, 99] (by rfl) (by rfl) (by decide)
      (by rfl) (by rfl) (by rfl) (by decide)⟩

theorem ptr_confirm_true (c : DNSClient) (env : DnsEnv) (ip : IpAddr) (name : List Nat)
    (h : ptr_confirm c env ip name = .ok true) :
    (∀ o, ip = .V4 o → ∃ ips, query_a c env name = .ok ips ∧ o ∈ ips) ∧
    (∀ o, ip = .V6 o → ∃ ips, query_aaaa c env name = .ok ips ∧ o ∈ ips) := by
  cases ip with
  | V4 o =>
    refine ⟨?_, by intro o2 h2; simp at h2⟩
    intro o2 h2
    simp only [IpAddr.V4.injEq] at h2
    subst h2
    unfold ptr_confirm at h
    cases hqa : query_a c env name with
    | error e => rw [hqa] at h; simp at h
    | ok ips =>
      rw [hqa] at h
      simp only [Except.ok.injEq, decide_eq_true_eq] at h
      exact ⟨ips, rfl, h⟩
  | V6 o =>
    refine ⟨by intro o2 h2; simp at h2, ?_⟩
    intro o2 h2
    simp only [IpAddr.V6.injEq] at h2
    subst h2
    unfold ptr_confirm at h
    cases hqa : query_aaaa c env name with
    | error e => rw [hqa] at h; simp at h
    | ok ips =>
      rw [hqa] at h
      simp only [Except.ok.injEq, decide_eq_true_eq] at h
      exact ⟨ips, rfl, h⟩

theorem ptr_walk_forward_confirmed (c : DNSClient) (env : DnsEnv) (ip : IpAddr)
    (answers : List RR) : ∀ (names : List (List Nat)) (name : List Nat),
    ptr_walk c env ip answers = .ok names → name ∈ names →
    (∀ o, ip = .V4 o → ∃ ips, query_a c env name = .ok ips ∧ o ∈ ips) ∧
    (∀ o, ip = .V6 o → ∃ ips, query_aaaa c env name = .ok ips ∧ o ∈ ips) := by
  induction answers with
  | nil =>
    intro names name h hmem
    unfold ptr_walk at h
    simp only [Except.ok.injEq] at h
    subst h
    simp at hmem
  | cons a rest ih =>
    intro names name h hmem
    unfold ptr_walk at h
    split at h
    · exact ih names name h hmem
    · split at h
      · exact ih names name h hmem
      · split at h
        · simp at h
        · split at h
          · split at h
            · simp at h
            · rename_i hcf
              split at h
              · simp at h
              · rename_i names2 hw
                simp only [Except.ok.injEq] at h
                subst h
                rcases List.mem_cons.mp hmem with rfl | hmem2
                · exact ptr_confirm_true c env ip _ hcf
                · exact ih names2 name hw hmem2
            · exact ih names name h hmem
          · exact ih names name h hmem

/-- C5: a name appears in query_ptr's result only if re-resolving that name's
A records (V4 input) or AAAA records (V6 input) yields a list containing the
original input address; unconfirmed names are excluded. -/
theorem c5_query_ptr_forward_confirmation (c : DNSClient) (env : DnsEnv) (ip : IpAddr)
    (names : List (List Nat)) (name : List Nat)
    (h : query_ptr c env ip = .ok names) (hmem : name ∈ names) :
    (∀ o, ip = .V4 o → ∃ ips, query_a c env name = .ok ips ∧ o ∈ ips) ∧
    (∀ o, ip = .V6 o → ∃ ips, query_aaaa c env name = .ok ips ∧ o ∈ ips) := by
  unfold query_ptr at h
  split at h
  · simp at h
  · split at h
    · simp at h
    · exact ptr_walk_forward_confirmed c env ip _ names name h hmem

/-- Witness for C5: a concrete reverse lookup whose decoded name is kept, and
the same forward lookup indeed contains the original address. -/
theorem c5_witness :
    ∃ ips, query_a clientA envPtr [97] = .ok ips ∧ [1, 1, 1, 1] ∈ ips :=
  (c5_query_ptr_forward_confirmation clientA envPtr ipW [[97]] [97] (by rfl)
      (by decide)).1 [1, 1, 1, 1] (by rfl)

/-- C6: evaluation of the reverse-name construction.  The IPv4 case yields the
reversed dotted-decimal name; for IPv6 the code emits the 16 octets reversed
and rendered in decimal, not the 32 reversed nibble-separated hexadecimal
digits the specification describes, as the concrete address ::ff shows. -/
theorem c6_rev_name_eval :
    rev_name (.V4 [1, 2, 3, 4]) = strBytes "4.3.2.1.in-addr.arpa" ∧
    rev_name (.V6 [0, 0, 0, 0, 0, 0, 0, 0, 0, 0, 0, 0, 0, 0, 0, 255]) =
      strBytes "255.0.0.0.0.0.0.0.0.0.0.0.0.0.0.0.ip6.arpa" ∧
    rev_name_spec (.V6 [0, 0, 0, 0, 0, 0, 0, 0, 0, 0, 0, 0, 0, 0, 0, 255]) =
      strBytes "f.f.0.0.0.0.0.0.0.0.0.0.0.0.0.0.0.0.0.0.0.0.0.0.0.0.0.0.0.0.0.0.ip6.arpa" ∧
    rev_name (.V6 [0, 0, 0, 0, 0, 0, 0, 0, 0, 0, 0, 0, 0, 0, 0, 255]) ≠
      rev_name_spec (.V6 [0, 0, 0, 0, 0, 0, 0, 0, 0, 0, 0, 0, 0, 0, 0, 255]) :=
  ⟨by decide, by decide, by decide, by decide⟩

theorem lineEntryTrimmed_port (parseIp : List Char → Option IpAddr) (t : List Char)
    (s : UpstreamServer) (h : lineEntryTrimmed parseIp t = some s) : s.addr.port = 53 := by
  unfold lineEntryTrimmed at h
  split at h
  · simp at h
  · split at h
    · simp at h
    · split at h
      · simp at h
      · split at h
        · simp at h
        · rename_i ip hip
          simp only [Option.some.injEq] at h
          subst h
          cases ip <;> rfl

theorem lineEntry_port (parseIp : List Char → Option IpAddr) (line : List Char)
    (s : UpstreamServer) (h : lineEntry parseIp line = some s) : s.addr.port = 53 :=
  lineEntryTrimmed_port parseIp (trimChars line) s h

/-- Counterexample for C9: on platforms without resolver configuration the
source returns a NotFound error, so the claimed Unsupported error kind is
wrong there. -/
theorem c9_counterexample :
    default_resolvers_non_unix =
      .error ⟨.notFound,
        "System resolvers are not supported by the software on this platform"⟩ ∧
    ∀ m : String, default_resolvers_non_unix ≠ .error ⟨.unsupported, m⟩ := by
  constructor
  · rfl
  · intro m h
    simp [default_resolvers_non_unix] at h

/-- C9 amended: host-configuration resolver discovery fails with NotFound
when the configuration yields zero usable nameserver entries, fails with a
NotFound error (not Unsupported) on platforms without such configuration,
skips lines whose address is unparseable, and assigns port 53 to every
discovered server. -/
theorem c9_resolver_discovery_amended :
    (∀ (parseIp : List Char → Option IpAddr) (lines : List (List Char)),
      lines.filterMap (lineEntry parseIp) = [] →
      default_resolvers_unix parseIp lines =
        .error ⟨.notFound, "No upstream servers found"⟩) ∧
    (default_resolvers_non_unix =
      .error ⟨.notFound,
        "System resolvers are not supported by the software on this platform"⟩) ∧
    (∀ (parseIp : List Char → Option IpAddr) (pre post : List (List Char))
      (bad : List Char),
      lineEntry parseIp bad = none →
      default_resolvers_unix parseIp (pre ++ bad :: post) =
        default_resolvers_unix parseIp (pre ++ post)) ∧
    (∀ (parseIp : List Char → Option IpAddr) (lines : List (List Char))
      (servers : List UpstreamServer),
      default_resolvers_unix parseIp lines = .ok servers →
      ∀ s ∈ servers, s.addr.port = 53) := by
  refine ⟨?_, rfl, ?_, ?_⟩
  · intro parseIp lines hempty
    unfold default_resolvers_unix
    rw [hempty]
  · intro parseIp pre post bad hbad
    unfold default_resolvers_unix
    rw [List.filterMap_append, List.filterMap_append, List.filterMap_cons, hbad]
  · intro parseIp lines servers h s hs
    unfold default_resolvers_unix at h
    split at h
    · simp at h
    · simp only [Except.ok.injEq] at h
      subst h
      rcases List.mem_filterMap.mp hs with ⟨line, _, hline⟩
      exact lineEntry_port parseIp line s hline

/-- Witness for C9 amended: a malformed nameserver line is skipped, a
configuration with no usable line fails with NotFound, and the discovered
server of a concrete configuration carries port 53. -/
theorem c9_witness :
    default_resolvers_unix parseIpFix linesFix =
      default_resolvers_unix parseIpFix ["nameserver 1.1.1.1".toList] ∧
    default_resolvers_unix parseIpFix ["hello".toList] =
      .error ⟨.notFound, "No upstream servers found"⟩ ∧
    ∀ s ∈ ([⟨.V4 [1, 1, 1, 1] 53⟩] : List UpstreamServer), s.addr.port = 53 :=
  ⟨c9_resolver_discovery_amended.2.2.1 parseIpFix ["nameserver 1.1.1.1".toList] []
      ("nameserver bogus".toList) (by rfl),
    c9_resolver_discovery_amended.1 parseIpFix ["hello".toList] (by rfl),
    c9_resolver_discovery_amended.2.2.2 parseIpFix linesFix [⟨.V4 [1, 1, 1, 1] 53⟩]
      (by rfl)⟩
